import Mathlib

/-!
Verification development for the LED_Lamp_2 firmware control core
(`src/button.c` and `src/led.c`).

The C sources are shallowly embedded as follows.

* Machine integers (`unsigned char`, `uint8_t`, `uint32_t`) become `ℕ`;
  where overflow matters the source expression is wrapped with an explicit
  `% 2^w` (`% 256` for bytes, `% UINT32_LIMIT` for 32-bit words).  Bitwise
  operators map to `^^^`, `&&&`, `|||`; the C complement `~x` on an
  `unsigned char` becomes `x ^^^ 255`.
* The C `float` variable `_brightness_scale` is modelled as an exact
  rational (`ℚ`); the `uint32_t` cast of a nonnegative float truncates,
  i.e. takes the floor.
* The mutable module-level state of `led.c` becomes the explicit record
  `LedSys`, threaded through each handler; the function-static triple
  `(state, cnt0, cnt1)` of `debounce` in `button.c` becomes the record
  `DebounceState`.
* Hardware timers are modelled by the two Booleans `timerA_enabled`
  (TIMER1A, fade stepping) and `timerB_enabled` (TIMER1B, lux polling);
  `TimerEnable`/`TimerDisable` set them, and a periodic interrupt can only
  fire while its timer is enabled (see `stepEvent`).
* The lux-sensor read `tsl2591_lux_get` returns `0` on success; it is
  modelled as an `Option ℕ` input to the TIMER1B handler (`none` is a
  transport error, `some lux` a successful read).
-/

namespace LEDLamp

/-! ### Debouncer — `src/button.c`, `debounce` (lines 146-159)

```c
unsigned char debounce(unsigned char sample, unsigned char *toggle)
{
    static unsigned char state = 0xFF, cnt0, cnt1;
    unsigned char delta;

    delta = sample ^ state;
    cnt1 = (cnt1 ^ cnt0) & delta;
    cnt0 = ~cnt0 & delta;

    *toggle = delta & ~(cnt0 | cnt1);
    state ^= *toggle;

    return state;
}
```
-/

/-- The function-static state of `debounce`: the debounced level `state`
and the two vertical-counter bit planes `cnt0`, `cnt1`.  All are bytes. -/
structure DebounceState where
  state : ℕ
  cnt0 : ℕ
  cnt1 : ℕ
deriving DecidableEq

/-- Byte complement: `~x` on an `unsigned char` (the result of `~` on the
promoted `int`, truncated back to 8 bits by the assignment). -/
def not8 (x : ℕ) : ℕ := x ^^^ 255

/-- One call of `debounce` (button.c lines 146-159).  Returns the updated
static state together with the pair (returned `state`, written `*toggle`)
folded into the record/second component. -/
def debounce (sample : ℕ) (s : DebounceState) : DebounceState × ℕ :=
  let delta := sample ^^^ s.state
  let cnt1 := (s.cnt1 ^^^ s.cnt0) &&& delta
  let cnt0 := not8 s.cnt0 &&& delta
  let toggle := delta &&& not8 (cnt0 ||| cnt1)
  (⟨s.state ^^^ toggle, cnt0, cnt1⟩, toggle)

/-- Initial static state of `debounce`: `state = 0xFF`, counters zero. -/
def debounceInit : DebounceState := ⟨255, 0, 0⟩

/-- Iterated polling: `runDebounce f s n` is the state and last toggle
after `n` timer ticks, where tick `t` (0-based) samples the raw byte
`f t`.  The toggle component of `runDebounce f s 0` is the dummy `0`. -/
def runDebounce (f : ℕ → ℕ) (s : DebounceState) : ℕ → DebounceState × ℕ
  | 0 => (s, 0)
  | n + 1 => debounce (f n) (runDebounce f s n).1

/-- Single-line (one-bit) restriction of the debounce state. -/
structure DebounceBit where
  state : Bool
  cnt0 : Bool
  cnt1 : Bool
deriving DecidableEq

/-- `debounce` restricted to one input line: the algorithm is fully
bitwise-parallel, so each bit position evolves independently by this
one-bit step (this is proved, not assumed: see `debounce_projBit`). -/
def debounceBit (sample : Bool) (s : DebounceBit) : DebounceBit × Bool :=
  let delta := sample.xor s.state
  let cnt1 := (s.cnt1.xor s.cnt0) && delta
  let cnt0 := !s.cnt0 && delta
  let toggle := delta && !(cnt0 || cnt1)
  (⟨s.state.xor toggle, cnt0, cnt1⟩, toggle)

/-- Iterated one-line polling with sample stream `g`. -/
def runDebounceBit (g : ℕ → Bool) (s : DebounceBit) : ℕ → DebounceBit × Bool
  | 0 => (s, false)
  | n + 1 => debounceBit (g n) (runDebounceBit g s n).1

/-- Projection of the byte-level state onto line `i`. -/
def projBit (i : ℕ) (s : DebounceState) : DebounceBit :=
  ⟨s.state.testBit i, s.cnt0.testBit i, s.cnt1.testBit i⟩

/-! ### LED controller — `src/led.c`

The module-level mutable state of `led.c` (the channel table `LED_LIST`,
`_brightness_scale`, `_brightness_interval`, `_current_profile_index`,
`_lux_sensor_sensitivity`, `_max_lux`, `_sw_enable`, `lux_sensor_found`,
the function-static `current_lux` of `TIMER1B_Handler`, and the
enable/disable status of the two halves of TIMER1) is collected into the
record `LedSys`.  Hardware-register writes (`PWMPulseWidthSet`,
`PWMOutputState`, `TimerLoadSet`) have no feedback into this state except
through `current_brightness`, which `led_hw_brightness_set` mirrors, and
through the timer enables; logging calls are dropped.
-/

def LED_BRIGHTNESS_EXP_POINT : ℕ := 100

def LED_MAX_BRIGHTNESS_LEVEL : ℕ := 255

def LED_LUX_CHANGE_HYSTERESIS : ℕ := 30

def LED_MAX_LUX_SENSITIVITY : ℕ := 255

/-- `2^32`; `uint32_t` arithmetic is reduced modulo this. -/
def UINT32_LIMIT : ℕ := 4294967296

/-- The mutable part of a `LED_LIST` entry (led.c lines 89-107); the
constant hardware-description fields are dropped. -/
structure LedInfo where
  current_brightness : ℕ
  previous_brightness : ℕ
  desired_brightness : ℕ
deriving DecidableEq

/-- One entry of `led_profile_list` (led.c lines 119-125). -/
structure LedProfile where
  led1_type : ℕ
  led1_brightness : ℕ
  led2_type : ℕ
  led2_brightness : ℕ

/-- `led_profile_list` (led.c lines 127-132): channel 1 is
`LED_ONBOARD_BLUE`, channel 2 is `LED_ONBOARD_GREEN`. -/
def led_profile_list : List LedProfile :=
  [⟨1, 100, 2, 255⟩, ⟨1, 0, 2, 255⟩, ⟨1, 0, 2, 100⟩]

/-- `num_profiles` (led.c line 133). -/
def num_profiles : ℕ := 3

/-- The module-level state of `led.c`. -/
structure LedSys where
  leds : List LedInfo
  brightness_scale : ℚ
  brightness_interval : ℕ
  current_profile_index : ℕ
  lux_sensor_sensitivity : ℕ
  max_lux : ℕ
  current_lux : ℕ
  sw_enable : Bool
  lux_sensor_found : Bool
  timerA_enabled : Bool
  timerB_enabled : Bool
deriving DecidableEq

/-- The `uint32_t` value of `desired_brightness * _brightness_scale`
(led.c line 192): the product is computed in `float` and truncated by the
assignment back to `uint32_t`; for a nonnegative value truncation is the
floor. -/
def targetOf (desired : ℕ) (scale : ℚ) : ℕ := (⌊(desired : ℚ) * scale⌋).toNat

/-- The body of the per-channel loop of `TIMER1A_Handler` (led.c lines
189-203).  Returns the updated channel together with the C loop's
contribution to `no_change` (`true` in the second component means the
channel changed, i.e. `no_change` was set `false`).  The calls
`led_hw_brightness_set(i, current ± _brightness_interval)` store the
`uint32_t` sum/difference into `current_brightness`; the C subtraction
wraps modulo `2^32`, which is written out explicitly.  There is no
clamping at the target in the source. -/
def fadeChannel (scale : ℚ) (step : ℕ) (c : LedInfo) : LedInfo × Bool :=
  let target := targetOf c.desired_brightness scale
  if target < c.current_brightness then
    ({ c with current_brightness :=
        (c.current_brightness + UINT32_LIMIT - step % UINT32_LIMIT) % UINT32_LIMIT }, true)
  else if c.current_brightness < target then
    ({ c with current_brightness := (c.current_brightness + step) % UINT32_LIMIT }, true)
  else (c, false)

/-- `TIMER1A_Handler` (led.c lines 180-210): one fade tick.  Every channel
is stepped by `fadeChannel`; if no channel changed, TIMER1A is disabled. -/
def TIMER1A_Handler (s : LedSys) : LedSys :=
  let stepped := s.leds.map (fadeChannel s.brightness_scale s.brightness_interval)
  { s with
    leds := stepped.map Prod.fst,
    timerA_enabled := if stepped.all (fun p => !p.2) then false else s.timerA_enabled }

/-- `led_update_hw_start` (led.c lines 730-733): enables TIMER1A. -/
def led_update_hw_start (s : LedSys) : LedSys := { s with timerA_enabled := true }

/-- Write `v` into the `desired_brightness` field of entry `i` of the
channel list (out-of-range `i` leaves the list unchanged; in the C source
an out-of-range index would be an out-of-bounds array write and is never
produced by the modelled callers). -/
def setDesired (i v : ℕ) : List LedInfo → List LedInfo
  | [] => []
  | c :: cs =>
    match i with
    | 0 => { c with desired_brightness := v } :: cs
    | j + 1 => c :: setDesired j v cs

/-- `led_sw_brightness_set` (led.c lines 501-504). -/
def led_sw_brightness_set (led_type brightness : ℕ) (s : LedSys) : LedSys :=
  { s with leds := setDesired led_type brightness s.leds }

/-- `led_brightness_step_set` (led.c lines 548-551); the parameter is a
`uint8_t`, so the value stored is the argument reduced modulo 256. -/
def led_brightness_step_set (interval : ℕ) (s : LedSys) : LedSys :=
  { s with brightness_interval := interval % 256 }

/-- `led_profile_load` (led.c lines 582-601). -/
def led_profile_load (index : ℕ) (s : LedSys) : LedSys :=
  if s.sw_enable then
    if num_profiles ≤ index then s
    else
      let p := led_profile_list.getD index ⟨0, 0, 0, 0⟩
      let s1 := led_sw_brightness_set p.led1_type p.led1_brightness s
      let s2 := led_sw_brightness_set p.led2_type p.led2_brightness s1
      { led_update_hw_start s2 with current_profile_index := index }
  else s

/-- `led_profile_load_next` (led.c lines 614-621). -/
def led_profile_load_next (s : LedSys) : LedSys :=
  if s.sw_enable then
    led_profile_load ((s.current_profile_index + 1) % num_profiles)
      { s with current_profile_index := (s.current_profile_index + 1) % num_profiles }
  else s

/-- `led_sw_enable_set` (led.c lines 637-663). -/
def led_sw_enable_set (enable : Bool) (s : LedSys) : LedSys :=
  if enable = s.sw_enable then s
  else
    let s1 :=
      if enable then
        { s with leds := s.leds.map fun c =>
            { c with desired_brightness := c.previous_brightness } }
      else
        { s with leds := s.leds.map fun c =>
            { c with previous_brightness := c.desired_brightness, desired_brightness := 0 } }
    { led_update_hw_start s1 with sw_enable := enable }

/-- `led_sw_enable_toggle` (led.c lines 687-693). -/
def led_sw_enable_toggle (s : LedSys) : LedSys :=
  if s.sw_enable then led_sw_enable_set false s else led_sw_enable_set true s

/-- `led_lux_sensitivity_set` (led.c lines 708-716): an argument above
`LED_MAX_LUX_SENSITIVITY` only clamps the local parameter (which is then
merely logged); the module variable `_lux_sensor_sensitivity` is written
only in the `else` branch. -/
def led_lux_sensitivity_set (sensitivity : ℕ) (s : LedSys) : LedSys :=
  if LED_MAX_LUX_SENSITIVITY < sensitivity then s
  else { s with lux_sensor_sensitivity := sensitivity }

/-- `TIMER1B_Handler` (led.c lines 222-262): one ambient-light poll.
`reading` is the outcome of `tsl2591_lux_get` (`none` = nonzero I2C
status, `some lux` = success writing `lux`).  The body runs only while
TIMER1A is idle and the software enable is on. -/
def TIMER1B_Handler (reading : Option ℕ) (s : LedSys) : LedSys :=
  if !s.timerA_enabled && s.sw_enable then
    match reading with
    | none =>
      { s with brightness_scale := 1, lux_sensor_found := false, timerB_enabled := false }
    | some lux =>
      let new_lux := if s.max_lux < lux then s.max_lux else lux
      if new_lux < s.current_lux ∧ s.current_lux - new_lux < LED_LUX_CHANGE_HYSTERESIS then
        s
      else if s.current_lux < new_lux ∧ new_lux - s.current_lux < LED_LUX_CHANGE_HYSTERESIS then
        s
      else
        led_update_hw_start
          { s with
            brightness_scale := 1 - ((s.lux_sensor_sensitivity : ℚ) / (LED_MAX_LUX_SENSITIVITY : ℚ))
              * (((s.max_lux - new_lux : ℕ) : ℚ) / (s.max_lux : ℚ)),
            current_lux := new_lux }
  else s

/-- The pulsewidth computation of `led_hw_brightness_set` (led.c lines
458-488): linear below `LED_BRIGHTNESS_EXP_POINT`, quadratic-over-knee at
or above it. -/
def led_hw_pulsewidth (brightness : ℕ) : ℕ :=
  if LED_BRIGHTNESS_EXP_POINT ≤ brightness then
    brightness * brightness / LED_BRIGHTNESS_EXP_POINT
  else brightness

/-- The operations of the modelled control core that can run after
initialisation: the two periodic interrupts (which fire only while their
timer is enabled) and the public setters reachable from the command shell
and the button dispatcher. -/
inductive LedEvent where
  | fadeTick : LedEvent
  | luxTick : Option ℕ → LedEvent
  | profileLoad : ℕ → LedEvent
  | profileLoadNext : LedEvent
  | swEnableSet : Bool → LedEvent
  | swEnableToggle : LedEvent
  | swBrightnessSet : ℕ → ℕ → LedEvent
  | luxSensitivitySet : ℕ → LedEvent
  | brightnessStepSet : ℕ → LedEvent
  | updateHwStart : LedEvent

/-- Small-step semantics of one event.  A timer interrupt can fire only
while its timer is enabled; everything else applies the corresponding
`led.c` function. -/
def stepEvent : LedEvent → LedSys → LedSys
  | .fadeTick, s => if s.timerA_enabled then TIMER1A_Handler s else s
  | .luxTick r, s => if s.timerB_enabled then TIMER1B_Handler r s else s
  | .profileLoad i, s => led_profile_load i s
  | .profileLoadNext, s => led_profile_load_next s
  | .swEnableSet b, s => led_sw_enable_set b s
  | .swEnableToggle, s => led_sw_enable_toggle s
  | .swBrightnessSet i v, s => led_sw_brightness_set i v s
  | .luxSensitivitySet v, s => led_lux_sensitivity_set v s
  | .brightnessStepSet v, s => led_brightness_step_set v s
  | .updateHwStart, s => led_update_hw_start s

/-- A state shaped like `led.c` right after a single-channel fade has been
started: one channel, given scale, step and an enabled TIMER1A; the
remaining fields are inherited from `s`. -/
def singleFadeSys (s : LedSys) (cur prev des step : ℕ) (q : ℚ) : LedSys :=
  { s with leds := [⟨cur, prev, des⟩], brightness_scale := q,
           brightness_interval := step, timerA_enabled := true }

/-- `desired_brightness` of channel `j` (the default entry is never used
by in-range indices). -/
def desiredAt (s : LedSys) (j : ℕ) : ℕ :=
  (s.leds.getD j ⟨0, 0, 0⟩).desired_brightness

/-- A concrete post-`led_init` style state used by the witnesses: three
channels with desired brightness 10, 20, 30, neutral scale, step 1,
`_max_lux = 200`, software enable on, fade timer idle, lux timer running,
`current_lux` at its `UINT32_MAX` initial value. -/
def sampleSys : LedSys :=
  { leds := [⟨0, 0, 10⟩, ⟨0, 0, 20⟩, ⟨0, 0, 30⟩],
    brightness_scale := 1,
    brightness_interval := 1,
    current_profile_index := 0,
    lux_sensor_sensitivity := 0,
    max_lux := 200,
    current_lux := 4294967295,
    sw_enable := true,
    lux_sensor_found := true,
    timerA_enabled := false,
    timerB_enabled := true }

lemma testBit_not8 (x i : ℕ) (hi : i < 8) : (not8 x).testBit i = !x.testBit i := by
  have h255 : (255 : ℕ).testBit i = true := by interval_cases i <;> decide
  simp [not8, Nat.testBit_xor, h255]

/-- Bit-plane decomposition of one `debounce` step: on every line `i < 8`
the byte-level step restricts to `debounceBit`. -/
lemma debounce_projBit (i : ℕ) (hi : i < 8) (sample : ℕ) (s : DebounceState) :
    projBit i (debounce sample s).1 = (debounceBit (sample.testBit i) (projBit i s)).1 ∧
    (debounce sample s).2.testBit i = (debounceBit (sample.testBit i) (projBit i s)).2 := by
  simp only [debounce, debounceBit, projBit, Nat.testBit_xor, Nat.testBit_and,
    Nat.testBit_or, testBit_not8 _ _ hi, DebounceBit.mk.injEq]
  cases h1 : sample.testBit i <;> cases h2 : s.state.testBit i <;>
    cases h3 : s.cnt0.testBit i <;> cases h4 : s.cnt1.testBit i <;> simp

/-- Bit-plane decomposition of an iterated run. -/
lemma runDebounce_projBit (i : ℕ) (hi : i < 8) (f : ℕ → ℕ) (s : DebounceState) (n : ℕ) :
    projBit i (runDebounce f s n).1 =
      (runDebounceBit (fun t => (f t).testBit i) (projBit i s) n).1 ∧
    (n ≠ 0 → (runDebounce f s n).2.testBit i =
      (runDebounceBit (fun t => (f t).testBit i) (projBit i s) n).2) := by
  induction n with
  | zero => simp [runDebounce, runDebounceBit]
  | succ m ih =>
    have h1 := (debounce_projBit i hi (f m) (runDebounce f s m).1).1
    have h2 := (debounce_projBit i hi (f m) (runDebounce f s m).1).2
    refine ⟨?_, fun _ => ?_⟩
    · simpa [runDebounce, runDebounceBit, ih.1] using h1
    · simpa [runDebounce, runDebounceBit, ih.1] using h2

/-- The settled one-line state is a fixpoint: once the debounced level
equals the sample and both counters are clear, nothing changes and no
toggle is emitted. -/
lemma debounceBit_settled (b : Bool) :
    debounceBit b ⟨b, false, false⟩ = (⟨b, false, false⟩, false) := by
  cases b <;> rfl

/-- One-line single steps of the vertical counter, for each reachable
counter phase under a sample that differs from the debounced level. -/
lemma debounceBit_step1 (b : Bool) :
    debounceBit (!b) ⟨b, false, false⟩ = (⟨b, true, false⟩, false) := by
  cases b <;> rfl

lemma debounceBit_step2 (b : Bool) :
    debounceBit (!b) ⟨b, true, false⟩ = (⟨b, false, true⟩, false) := by
  cases b <;> rfl

lemma debounceBit_step3 (b : Bool) :
    debounceBit (!b) ⟨b, false, true⟩ = (⟨b, true, true⟩, false) := by
  cases b <;> rfl

lemma debounceBit_step4 (b : Bool) :
    debounceBit (!b) ⟨b, true, true⟩ = (⟨!b, false, false⟩, true) := by
  cases b <;> rfl

/-- A sample matching the debounced level clears the counters without a
toggle, whatever their phase. -/
lemma debounceBit_revert (b : Bool) (c0 c1 : Bool) :
    debounceBit b ⟨b, c0, c1⟩ = (⟨b, false, false⟩, false) := by
  cases b <;> cases c0 <;> cases c1 <;> rfl

/-- Under a sustained changed sample the line state is settled at the new
level from tick 4 on. -/
lemma runDebounceBit_sustained_state (b : Bool) (n : ℕ) (h : 4 ≤ n) :
    (runDebounceBit (fun _ => !b) ⟨b, false, false⟩ n).1 = ⟨!b, false, false⟩ := by
  induction n with
  | zero => omega
  | succ m ih =>
    rcases Nat.lt_or_ge m 4 with hm | hm
    · have hm3 : m = 3 := by omega
      subst hm3
      show (debounceBit (!b) (runDebounceBit (fun _ => !b) ⟨b, false, false⟩ 3).1).1 = _
      have h3 : (runDebounceBit (fun _ => !b) ⟨b, false, false⟩ 3).1 = ⟨b, true, true⟩ := by
        show (debounceBit (!b) (debounceBit (!b) (debounceBit (!b) ⟨b, false, false⟩).1).1).1 = _
        rw [debounceBit_step1]
        rw [debounceBit_step2]
        rw [debounceBit_step3]
      rw [h3, debounceBit_step4]
    · show (debounceBit (!b) (runDebounceBit (fun _ => !b) ⟨b, false, false⟩ m).1).1 = _
      rw [ih hm, debounceBit_settled]

/-- Full sustained-change trajectory of one line, starting settled with
clear counters: no toggle on ticks 1-3, the single toggle on tick 4, and
the debounced level equals the old level through tick 3 and the new level
from tick 4 on. -/
lemma runDebounceBit_sustained (b : Bool) (n : ℕ) (h : 1 ≤ n) :
    (runDebounceBit (fun _ => !b) ⟨b, false, false⟩ n).2 = decide (n = 4) ∧
    (runDebounceBit (fun _ => !b) ⟨b, false, false⟩ n).1.state =
      (if n ≤ 3 then b else !b) := by
  have e1 : runDebounceBit (fun _ => !b) ⟨b, false, false⟩ 1 = (⟨b, true, false⟩, false) := by
    show debounceBit (!b) ⟨b, false, false⟩ = _
    rw [debounceBit_step1]
  have e2 : runDebounceBit (fun _ => !b) ⟨b, false, false⟩ 2 = (⟨b, false, true⟩, false) := by
    show debounceBit (!b) (runDebounceBit (fun _ => !b) ⟨b, false, false⟩ 1).1 = _
    rw [e1, debounceBit_step2]
  have e3 : runDebounceBit (fun _ => !b) ⟨b, false, false⟩ 3 = (⟨b, true, true⟩, false) := by
    show debounceBit (!b) (runDebounceBit (fun _ => !b) ⟨b, false, false⟩ 2).1 = _
    rw [e2, debounceBit_step3]
  have e4 : runDebounceBit (fun _ => !b) ⟨b, false, false⟩ 4 = (⟨!b, false, false⟩, true) := by
    show debounceBit (!b) (runDebounceBit (fun _ => !b) ⟨b, false, false⟩ 3).1 = _
    rw [e3, debounceBit_step4]
  match n with
  | 1 => rw [e1]; simp
  | 2 => rw [e2]; simp
  | 3 => rw [e3]; simp
  | 4 => rw [e4]; simp
  | (m + 5) =>
    have hs : (runDebounceBit (fun _ => !b) ⟨b, false, false⟩ (m + 4)).1 =
        ⟨!b, false, false⟩ := runDebounceBit_sustained_state b (m + 4) (by omega)
    constructor
    · show (debounceBit (!b) (runDebounceBit (fun _ => !b) ⟨b, false, false⟩ (m + 4)).1).2 = _
      rw [hs, debounceBit_settled]
      simp
    · show (debounceBit (!b) (runDebounceBit (fun _ => !b) ⟨b, false, false⟩ (m + 4)).1).1.state = _
      rw [hs, debounceBit_settled]
      simp

/-- Alternating-input trajectory of one line: if the raw sample differs
from the settled level on every even tick and matches it on every odd
tick, the state cycles with period 2 and no toggle is ever emitted. -/
lemma runDebounceBit_alternating (b : Bool) (g : ℕ → Bool)
    (hg : ∀ t, g t = if t % 2 = 0 then !b else b) (n : ℕ) :
    (runDebounceBit g ⟨b, false, false⟩ n).1 =
      (if n % 2 = 0 then ⟨b, false, false⟩ else ⟨b, true, false⟩) ∧
    (runDebounceBit g ⟨b, false, false⟩ n).2 = false := by
  induction n with
  | zero => simp [runDebounceBit]
  | succ m ih =>
    by_cases hm : m % 2 = 0
    · have hg' : g m = !b := by rw [hg m, if_pos hm]
      have hst : (runDebounceBit g ⟨b, false, false⟩ m).1 = ⟨b, false, false⟩ := by
        rw [ih.1, if_pos hm]
      have hm1 : ¬ ((m + 1) % 2 = 0) := by omega
      constructor
      · show (debounceBit (g m) (runDebounceBit g ⟨b, false, false⟩ m).1).1 = _
        rw [hg', hst, debounceBit_step1, if_neg hm1]
      · show (debounceBit (g m) (runDebounceBit g ⟨b, false, false⟩ m).1).2 = false
        rw [hg', hst, debounceBit_step1]
    · have hg' : g m = b := by rw [hg m, if_neg hm]
      have hst : (runDebounceBit g ⟨b, false, false⟩ m).1 = ⟨b, true, false⟩ := by
        rw [ih.1, if_neg hm]
      have hm1 : (m + 1) % 2 = 0 := by omega
      constructor
      · show (debounceBit (g m) (runDebounceBit g ⟨b, false, false⟩ m).1).1 = _
        rw [hg', hst, debounceBit_revert, if_pos hm1]
      · show (debounceBit (g m) (runDebounceBit g ⟨b, false, false⟩ m).1).2 = false
        rw [hg', hst, debounceBit_revert]

/-- C3 — counterexample.  From the settled initial state of `debounce`
(`state = 0xFF`, both counter bits zero), a raw level change to 0
sustained from tick 1 on does NOT emit a toggle on the second qualifying
tick: after two calls the written `*toggle` is 0 on every line and the
debounced state is still 0xFF (the toggle only arrives on tick 4). -/
theorem C3_second_tick_counterexample :
    (runDebounce (fun _ => 0) debounceInit 2).2 = 0 ∧
    (runDebounce (fun _ => 0) debounceInit 2).2.testBit 0 = false ∧
    (runDebounce (fun _ => 0) debounceInit 2).1.state = 255 ∧
    (runDebounce (fun _ => 0) debounceInit 4).2 = 255 := by
  decide

/-- C3 — amended.  For every debounce line `i` starting settled with both
counter bits zero, a raw level change sustained from tick 1 on produces
exactly one toggle, emitted on the FOURTH qualifying tick (not the
second): on every tick `n ≥ 1` the toggle bit of line `i` is set iff
`n = 4`, and the returned state bit equals the old level through tick 3
and the new sustained raw level from tick 4 on. -/
theorem C3_sustained_change_toggles_on_fourth_tick
    (st sm i n : ℕ) (hi : i < 8) (hne : sm.testBit i ≠ st.testBit i) (hn : 1 ≤ n) :
    ((runDebounce (fun _ => sm) ⟨st, 0, 0⟩ n).2.testBit i = decide (n = 4)) ∧
    ((runDebounce (fun _ => sm) ⟨st, 0, 0⟩ n).1.state.testBit i =
      if n ≤ 3 then st.testBit i else sm.testBit i) := by
  have hproj : projBit i ⟨st, 0, 0⟩ = ⟨st.testBit i, false, false⟩ := by
    simp [projBit]
  have hsm : sm.testBit i = !(st.testBit i) := by
    cases hsm' : sm.testBit i <;> cases hst' : st.testBit i <;> simp_all
  have hrun := runDebounce_projBit i hi (fun _ => sm) ⟨st, 0, 0⟩ n
  have h2 := hrun.2 (by omega)
  have h1 := congrArg DebounceBit.state hrun.1
  simp only [projBit, Nat.zero_testBit] at h1
  simp only [hproj, hsm] at h1 h2
  have hb := runDebounceBit_sustained (st.testBit i) n hn
  constructor
  · rw [h2, hb.1]
  · rw [h1, hb.2, hsm]

/-- C3 — witness: the amended theorem at the concrete initial state of
the firmware (settled at 0xFF) with the raw byte dropping to 0. -/
theorem C3_sustained_change_witness :
    ((runDebounce (fun _ => 0) ⟨255, 0, 0⟩ 4).2.testBit 0 = decide (4 = 4)) ∧
    ((runDebounce (fun _ => 0) ⟨255, 0, 0⟩ 4).1.state.testBit 0 =
      if 4 ≤ 3 then (255 : ℕ).testBit 0 else (0 : ℕ).testBit 0) :=
  C3_sustained_change_toggles_on_fourth_tick 255 0 0 4 (by decide) (by decide) (by decide)

/-- C4 — confirmed.  For every debounce line `i` settled with clear
counters: (a) a single-tick glitch (the raw bit differs from the settled
level on tick 1 and reverts on tick 2) emits no toggle on either tick and
leaves the line settled at the old level with clear counters; (b) a raw
bit that differs from the settled level on every other tick indefinitely
never emits a toggle, at any tick. -/
theorem C4_glitch_and_alternating_input_never_toggle
    (st i : ℕ) (hi : i < 8) (f : ℕ → ℕ) :
    ((f 0).testBit i = !st.testBit i → (f 1).testBit i = st.testBit i →
      (runDebounce f ⟨st, 0, 0⟩ 1).2.testBit i = false ∧
      (runDebounce f ⟨st, 0, 0⟩ 2).2.testBit i = false ∧
      projBit i (runDebounce f ⟨st, 0, 0⟩ 2).1 = ⟨st.testBit i, false, false⟩) ∧
    ((∀ t, (f t).testBit i = if t % 2 = 0 then !st.testBit i else st.testBit i) →
      ∀ n, (runDebounce f ⟨st, 0, 0⟩ n).2.testBit i = false) := by
  have hproj : projBit i ⟨st, 0, 0⟩ = ⟨st.testBit i, false, false⟩ := by
    simp [projBit]
  constructor
  · intro h0 h1
    have e1s : (runDebounceBit (fun t => (f t).testBit i) (projBit i ⟨st, 0, 0⟩) 1) =
        (⟨st.testBit i, true, false⟩, false) := by
      show debounceBit ((f 0).testBit i) (projBit i ⟨st, 0, 0⟩) = _
      rw [h0, hproj, debounceBit_step1]
    have e2s : (runDebounceBit (fun t => (f t).testBit i) (projBit i ⟨st, 0, 0⟩) 2) =
        (⟨st.testBit i, false, false⟩, false) := by
      show debounceBit ((f 1).testBit i)
        (runDebounceBit (fun t => (f t).testBit i) (projBit i ⟨st, 0, 0⟩) 1).1 = _
      rw [h1, e1s, debounceBit_revert]
    refine ⟨?_, ?_, ?_⟩
    · rw [(runDebounce_projBit i hi f ⟨st, 0, 0⟩ 1).2 (by omega), e1s]
    · rw [(runDebounce_projBit i hi f ⟨st, 0, 0⟩ 2).2 (by omega), e2s]
    · rw [(runDebounce_projBit i hi f ⟨st, 0, 0⟩ 2).1, e2s]
  · intro halt n
    match n with
    | 0 => simp [runDebounce]
    | (m + 1) =>
      have hb := runDebounceBit_alternating (st.testBit i) (fun t => (f t).testBit i)
        (fun t => halt t) (m + 1)
      rw [(runDebounce_projBit i hi f ⟨st, 0, 0⟩ (m + 1)).2 (by omega), hproj] at *
      rw [hb.2]

/-- C4 — witness: line 0 settled high (state 0xFF); the concrete sample
stream alternates between 0 and 0xFF starting with the glitch, covering
both the single-tick glitch (ticks 1-2) and the indefinite alternation
(shown here at tick 9): no toggle. -/
theorem C4_glitch_and_alternating_witness :
    (runDebounce (fun t => if t % 2 = 0 then 0 else 255) ⟨255, 0, 0⟩ 2).2.testBit 0 = false ∧
    (runDebounce (fun t => if t % 2 = 0 then 0 else 255) ⟨255, 0, 0⟩ 9).2.testBit 0 = false := by
  have h := C4_glitch_and_alternating_input_never_toggle 255 0 (by decide)
    (fun t => if t % 2 = 0 then 0 else 255)
  have halt : ∀ t, ((if t % 2 = 0 then (0 : ℕ) else 255)).testBit 0 =
      if t % 2 = 0 then !(255 : ℕ).testBit 0 else (255 : ℕ).testBit 0 := by
    intro t
    rcases Nat.mod_two_eq_zero_or_one t with ht | ht <;> simp [ht]
  exact ⟨((h.1 (by decide) (by decide)).2.1), h.2 halt 9⟩

/-- C5 — confirmed.  The brightness-to-pulsewidth mapping of
`led_hw_brightness_set` is the identity below the knee
`LED_BRIGHTNESS_EXP_POINT = 100`, equals `brightness² / 100` (integer
division) from the knee up, is continuous at the knee within rounding
(the values at 99 and 100 differ by exactly 1), and is monotone
non-decreasing (in particular over 0..255). -/
theorem C5_perceptual_curve_shape (a b : ℕ) :
    (b < LED_BRIGHTNESS_EXP_POINT → led_hw_pulsewidth b = b) ∧
    (LED_BRIGHTNESS_EXP_POINT ≤ b → b ≤ 255 →
      led_hw_pulsewidth b = b * b / LED_BRIGHTNESS_EXP_POINT) ∧
    (led_hw_pulsewidth 100 = led_hw_pulsewidth 99 + 1) ∧
    (a ≤ b → led_hw_pulsewidth a ≤ led_hw_pulsewidth b) := by
  refine ⟨?_, ?_, ?_, ?_⟩
  · intro h
    rw [led_hw_pulsewidth, if_neg (by omega)]
  · intro h _
    rw [led_hw_pulsewidth, if_pos h]
  · decide
  · intro hab
    by_cases hb : LED_BRIGHTNESS_EXP_POINT ≤ b
    · by_cases ha : LED_BRIGHTNESS_EXP_POINT ≤ a
      · rw [led_hw_pulsewidth, if_pos ha, led_hw_pulsewidth, if_pos hb]
        exact Nat.div_le_div_right (Nat.mul_le_mul hab hab)
      · rw [led_hw_pulsewidth, if_neg ha, led_hw_pulsewidth, if_pos hb]
        have h1 : LED_BRIGHTNESS_EXP_POINT * LED_BRIGHTNESS_EXP_POINT ≤ b * b :=
          Nat.mul_le_mul hb hb
        have h2 : LED_BRIGHTNESS_EXP_POINT * LED_BRIGHTNESS_EXP_POINT /
            LED_BRIGHTNESS_EXP_POINT ≤ b * b / LED_BRIGHTNESS_EXP_POINT :=
          Nat.div_le_div_right h1
        rw [LED_BRIGHTNESS_EXP_POINT] at *
        omega
    · have ha : ¬ LED_BRIGHTNESS_EXP_POINT ≤ a := by
        rw [LED_BRIGHTNESS_EXP_POINT] at *
        omega
      rw [led_hw_pulsewidth, if_neg ha, led_hw_pulsewidth, if_neg hb]
      exact hab

/-- C5 — witness: concrete evaluations of each conjunct. -/
theorem C5_perceptual_curve_witness :
    (led_hw_pulsewidth 42 = 42) ∧
    (led_hw_pulsewidth 200 = 200 * 200 / LED_BRIGHTNESS_EXP_POINT) ∧
    (led_hw_pulsewidth 100 = led_hw_pulsewidth 99 + 1) ∧
    (led_hw_pulsewidth 42 ≤ led_hw_pulsewidth 200) :=
  ⟨(C5_perceptual_curve_shape 42 42).1 (by decide),
   (C5_perceptual_curve_shape 42 200).2.1 (by decide) (by decide),
   (C5_perceptual_curve_shape 42 200).2.2.1,
   (C5_perceptual_curve_shape 42 200).2.2.2 (by decide)⟩

/-- C10 — confirmed.  `led_lux_sensitivity_set` stores an in-range value
(`≤ 255`) but leaves the stored sensitivity entirely unchanged for an
out-of-range one: the clamp in the `if` branch only writes the local
parameter, never the module variable, so values above 255 are dropped as
a state no-op rather than clamped. -/
theorem C10_lux_sensitivity_set_drops_out_of_range (v : ℕ) (s : LedSys) :
    (v ≤ LED_MAX_LUX_SENSITIVITY →
      led_lux_sensitivity_set v s = { s with lux_sensor_sensitivity := v }) ∧
    (LED_MAX_LUX_SENSITIVITY < v → led_lux_sensitivity_set v s = s) := by
  constructor
  · intro h
    rw [led_lux_sensitivity_set, if_neg (by omega)]
  · intro h
    rw [led_lux_sensitivity_set, if_pos h]

/-- C10 — witness: setting 7 stores 7; setting 999 changes nothing. -/
theorem C10_lux_sensitivity_set_witness :
    led_lux_sensitivity_set 7 sampleSys = { sampleSys with lux_sensor_sensitivity := 7 } ∧
    led_lux_sensitivity_set 999 sampleSys = sampleSys :=
  ⟨(C10_lux_sensitivity_set_drops_out_of_range 7 sampleSys).1 (by decide),
   (C10_lux_sensitivity_set_drops_out_of_range 999 sampleSys).2 (by decide)⟩

/-- C8 — confirmed.  From an enabled state, toggling the software enable
snapshots every channel's `desired_brightness` into
`previous_brightness` and zeroes `desired_brightness`; toggling again
restores every channel's `desired_brightness` from the snapshot, so
disable-then-enable is a round trip on the desired brightness vector. -/
theorem C8_enable_toggle_round_trip (s : LedSys) (h : s.sw_enable = true) :
    ((led_sw_enable_toggle s).leds.map LedInfo.previous_brightness =
      s.leds.map LedInfo.desired_brightness) ∧
    ((led_sw_enable_toggle s).leds.map LedInfo.desired_brightness =
      List.replicate s.leds.length 0) ∧
    ((led_sw_enable_toggle s).sw_enable = false) ∧
    ((led_sw_enable_toggle (led_sw_enable_toggle s)).sw_enable = true) ∧
    ((led_sw_enable_toggle (led_sw_enable_toggle s)).leds.map LedInfo.desired_brightness =
      s.leds.map LedInfo.desired_brightness) := by
  simp only [led_sw_enable_toggle, led_sw_enable_set, led_update_hw_start, h]
  simp [List.map_map, Function.comp_def, List.map_const']

/-- C8 — witness: with desired brightnesses `[10, 20, 30]` the disable
snapshots `[10, 20, 30]`, zeroes the targets, and the re-enable restores
`[10, 20, 30]`. -/
theorem C8_enable_toggle_witness :
    (led_sw_enable_toggle sampleSys).leds.map LedInfo.previous_brightness = [10, 20, 30] ∧
    (led_sw_enable_toggle sampleSys).leds.map LedInfo.desired_brightness = [0, 0, 0] ∧
    (led_sw_enable_toggle (led_sw_enable_toggle sampleSys)).leds.map
      LedInfo.desired_brightness = [10, 20, 30] :=
  ⟨((C8_enable_toggle_round_trip sampleSys rfl).1).trans rfl,
   ((C8_enable_toggle_round_trip sampleSys rfl).2.1).trans rfl,
   ((C8_enable_toggle_round_trip sampleSys rfl).2.2.2.2).trans rfl⟩

lemma setDesired_length (i v : ℕ) (l : List LedInfo) : (setDesired i v l).length = l.length := by
  induction l generalizing i with
  | nil => simp [setDesired]
  | cons c cs ih =>
    cases i with
    | zero => rfl
    | succ j => simp [setDesired, ih]

lemma setDesired_getD_self (i v : ℕ) (l : List LedInfo) (h : i < l.length) :
    ((setDesired i v l).getD i ⟨0, 0, 0⟩).desired_brightness = v := by
  induction l generalizing i with
  | nil => simp at h
  | cons c cs ih =>
    cases i with
    | zero => rfl
    | succ j =>
      simp only [setDesired, List.getD_cons_succ]
      refine ih j ?_
      simp only [List.length_cons] at h
      omega

lemma setDesired_getD_ne (i v j : ℕ) (l : List LedInfo) (h : j ≠ i) :
    (setDesired i v l).getD j ⟨0, 0, 0⟩ = l.getD j ⟨0, 0, 0⟩ := by
  induction l generalizing i j with
  | nil => simp [setDesired]
  | cons c cs ih =>
    cases i with
    | zero =>
      cases j with
      | zero => exact absurd rfl h
      | succ j' => rfl
    | succ i' =>
      cases j with
      | zero => rfl
      | succ j' =>
        simp only [setDesired, List.getD_cons_succ]
        exact ih i' j' (by omega)

/-- In-range, enabled unfolding of `led_profile_load`: the two listed
channels are written in order, TIMER1A is enabled, and the index is
recorded. -/
lemma led_profile_load_in_range (i : ℕ) (s : LedSys) (h : s.sw_enable = true)
    (hi : i < num_profiles) :
    led_profile_load i s =
      { s with
        leds := setDesired (led_profile_list.getD i ⟨0, 0, 0, 0⟩).led2_type
          (led_profile_list.getD i ⟨0, 0, 0, 0⟩).led2_brightness
          (setDesired (led_profile_list.getD i ⟨0, 0, 0, 0⟩).led1_type
            (led_profile_list.getD i ⟨0, 0, 0, 0⟩).led1_brightness s.leds),
        timerA_enabled := true,
        current_profile_index := i } := by
  rw [led_profile_load, if_pos h, if_neg (by omega)]
  rfl

/-- C9 — confirmed.  `led_profile_load i` is a complete no-op when the
lamp is globally disabled or `i` is out of range; in range and enabled it
records `i` as the current profile index, enables the fade timer, writes
the two listed channels' `desired_brightness` (the profiles list channels
1 and 2), and touches no other channel; `led_profile_load_next` (when
enabled; disabled it is also a no-op) advances the index by one modulo
`num_profiles` and delegates to `led_profile_load`. -/
theorem C9_profile_load_guards_and_wraparound (i : ℕ) (s : LedSys) :
    (s.sw_enable = false → led_profile_load i s = s ∧ led_profile_load_next s = s) ∧
    (s.sw_enable = true → num_profiles ≤ i → led_profile_load i s = s) ∧
    (s.sw_enable = true → i < num_profiles → 3 ≤ s.leds.length →
      (led_profile_load i s).current_profile_index = i ∧
      (led_profile_load i s).timerA_enabled = true ∧
      desiredAt (led_profile_load i s) (led_profile_list.getD i ⟨0, 0, 0, 0⟩).led1_type =
        (led_profile_list.getD i ⟨0, 0, 0, 0⟩).led1_brightness ∧
      desiredAt (led_profile_load i s) (led_profile_list.getD i ⟨0, 0, 0, 0⟩).led2_type =
        (led_profile_list.getD i ⟨0, 0, 0, 0⟩).led2_brightness ∧
      (∀ j, j ≠ 1 → j ≠ 2 → desiredAt (led_profile_load i s) j = desiredAt s j)) ∧
    (s.sw_enable = true →
      led_profile_load_next s =
        led_profile_load ((s.current_profile_index + 1) % num_profiles) s) := by
  refine ⟨?_, ?_, ?_, ?_⟩
  · intro h
    constructor
    · rw [led_profile_load]
      simp [h]
    · rw [led_profile_load_next]
      simp [h]
  · intro h hi
    rw [led_profile_load]
    simp [h, if_pos hi]
  · intro h hi hlen
    have hi3 : i < 3 := hi
    have htypes : (led_profile_list.getD i ⟨0, 0, 0, 0⟩).led1_type = 1 ∧
        (led_profile_list.getD i ⟨0, 0, 0, 0⟩).led2_type = 2 := by
      interval_cases i <;> exact ⟨rfl, rfl⟩
    obtain ⟨ht1, ht2⟩ := htypes
    rw [led_profile_load_in_range i s h hi, ht1, ht2]
    refine ⟨rfl, rfl, ?_, ?_, ?_⟩
    · show ((setDesired 2 _ (setDesired 1 _ s.leds)).getD 1 ⟨0, 0, 0⟩).desired_brightness = _
      rw [setDesired_getD_ne _ _ _ _ (by omega)]
      exact setDesired_getD_self 1 _ s.leds (by omega)
    · show ((setDesired 2 _ (setDesired 1 _ s.leds)).getD 2 ⟨0, 0, 0⟩).desired_brightness = _
      refine setDesired_getD_self 2 _ _ ?_
      rw [setDesired_length]
      omega
    · intro j hj1 hj2
      show ((setDesired 2 _ (setDesired 1 _ s.leds)).getD j ⟨0, 0, 0⟩).desired_brightness = _
      rw [setDesired_getD_ne _ _ _ _ hj2, setDesired_getD_ne _ _ _ _ hj1]
      rfl
  · intro h
    have hk : (s.current_profile_index + 1) % num_profiles < num_profiles :=
      Nat.mod_lt _ (by decide)
    rw [led_profile_load_next, if_pos h]
    rw [led_profile_load_in_range ((s.current_profile_index + 1) % num_profiles)
      { s with current_profile_index := (s.current_profile_index + 1) % num_profiles } h hk]
    rw [led_profile_load_in_range ((s.current_profile_index + 1) % num_profiles) s h hk]

/-- C9 — witness: on the concrete three-channel state, loading profile 1
while enabled sets channels 1 and 2 to `(0, 255)`, records index 1 and
starts the fade while leaving channel 0 alone; loading index 5 is a
no-op; everything is a no-op when disabled; and `led_profile_load_next`
from index 0 equals `led_profile_load 1`. -/
theorem C9_profile_load_witness :
    led_profile_load 0 { sampleSys with sw_enable := false } =
      { sampleSys with sw_enable := false } ∧
    led_profile_load 5 sampleSys = sampleSys ∧
    (led_profile_load 1 sampleSys).current_profile_index = 1 ∧
    (led_profile_load 1 sampleSys).timerA_enabled = true ∧
    desiredAt (led_profile_load 1 sampleSys) 1 = 0 ∧
    desiredAt (led_profile_load 1 sampleSys) 2 = 255 ∧
    desiredAt (led_profile_load 1 sampleSys) 0 = desiredAt sampleSys 0 ∧
    led_profile_load_next sampleSys =
      led_profile_load ((sampleSys.current_profile_index + 1) % num_profiles) sampleSys := by
  have hoff := (C9_profile_load_guards_and_wraparound 0
    { sampleSys with sw_enable := false }).1 rfl
  have hrange := (C9_profile_load_guards_and_wraparound 5 sampleSys).2.1 rfl (by decide)
  have hin := (C9_profile_load_guards_and_wraparound 1 sampleSys).2.2.1 rfl (by decide) (by decide)
  have hnext := (C9_profile_load_guards_and_wraparound 1 sampleSys).2.2.2 rfl
  exact ⟨hoff.1, hrange, hin.1, hin.2.1, hin.2.2.1, hin.2.2.2.1,
    hin.2.2.2.2 0 (by decide) (by decide), hnext⟩

lemma timerB_TIMER1A_Handler (s : LedSys) :
    (TIMER1A_Handler s).timerB_enabled = s.timerB_enabled := rfl

lemma timerB_led_profile_load (i : ℕ) (s : LedSys) :
    (led_profile_load i s).timerB_enabled = s.timerB_enabled := by
  rw [led_profile_load]
  split_ifs <;> rfl

lemma timerB_led_profile_load_next (s : LedSys) :
    (led_profile_load_next s).timerB_enabled = s.timerB_enabled := by
  rw [led_profile_load_next]
  split_ifs <;> simp [timerB_led_profile_load]

lemma timerB_led_sw_enable_set (b : Bool) (s : LedSys) :
    (led_sw_enable_set b s).timerB_enabled = s.timerB_enabled := by
  rw [led_sw_enable_set]
  split_ifs <;> rfl

lemma timerB_led_sw_enable_toggle (s : LedSys) :
    (led_sw_enable_toggle s).timerB_enabled = s.timerB_enabled := by
  rw [led_sw_enable_toggle]
  split_ifs <;> simp [timerB_led_sw_enable_set]

lemma timerB_led_lux_sensitivity_set (v : ℕ) (s : LedSys) :
    (led_lux_sensitivity_set v s).timerB_enabled = s.timerB_enabled := by
  rw [led_lux_sensitivity_set]
  split_ifs <;> rfl

/-- C7 — confirmed.  On a transport error during an ambient poll (guard
satisfied: fade timer idle, enable on) the handler sets the scale factor
to neutral 1, marks the sensor lost, disables TIMER1B, and leaves every
channel and the fade timer untouched; and once TIMER1B is disabled no
modelled event (interrupt or setter) re-enables it — further ambient
polls are no-ops — so polling stays halted until re-initialisation. -/
theorem C7_transport_error_neutral_scale_and_halt (s : LedSys)
    (hA : s.timerA_enabled = false) (hE : s.sw_enable = true) :
    ((TIMER1B_Handler none s).brightness_scale = 1 ∧
     (TIMER1B_Handler none s).lux_sensor_found = false ∧
     (TIMER1B_Handler none s).timerB_enabled = false ∧
     (TIMER1B_Handler none s).leds = s.leds ∧
     (TIMER1B_Handler none s).timerA_enabled = s.timerA_enabled) ∧
    (∀ s' : LedSys, s'.timerB_enabled = false →
      (∀ r, stepEvent (LedEvent.luxTick r) s' = s') ∧
      ∀ e, (stepEvent e s').timerB_enabled = false) := by
  constructor
  · simp [TIMER1B_Handler, hA, hE]
  · intro s' h
    constructor
    · intro r
      simp [stepEvent, h]
    · intro e
      cases e <;>
        simp [stepEvent, h, apply_ite, timerB_TIMER1A_Handler, timerB_led_profile_load,
          timerB_led_profile_load_next, timerB_led_sw_enable_set, timerB_led_sw_enable_toggle,
          timerB_led_lux_sensitivity_set, led_sw_brightness_set, led_brightness_step_set,
          led_update_hw_start]

/-- C7 — witness: the error poll on the concrete idle state, followed by
a fade tick on the degraded state, with TIMER1B still off and a further
poll a no-op. -/
theorem C7_transport_error_witness :
    (TIMER1B_Handler none sampleSys).brightness_scale = 1 ∧
    (TIMER1B_Handler none sampleSys).timerB_enabled = false ∧
    stepEvent (LedEvent.luxTick (some 77)) (TIMER1B_Handler none sampleSys) =
      TIMER1B_Handler none sampleSys ∧
    (stepEvent LedEvent.fadeTick (TIMER1B_Handler none sampleSys)).timerB_enabled = false := by
  have h := C7_transport_error_neutral_scale_and_halt sampleSys rfl rfl
  have h2 := h.2 (TIMER1B_Handler none sampleSys) h.1.2.2.1
  exact ⟨h.1.1, h.1.2.2.1, h2.1 (some 77), h2.2 LedEvent.fadeTick⟩

/-- C6 — counterexample.  A successful reading exactly equal to
`current_lux` (difference 0, far below the hysteresis threshold 30) falls
through both hysteresis guards — which require a strict change — and is
accepted: with `current_lux = 50`, `max_lux = 200`, `sensitivity = 255`
and neutral scale 1, polling `some 50` recomputes the scale factor to
`1/4 ≠ 1` (and starts the fade timer), contradicting "two consecutive
readings differing by less than the threshold never change
`scale_factor`". -/
theorem C6_equal_reading_accepted_counterexample :
    ({ sampleSys with current_lux := 50, lux_sensor_sensitivity := 255 } : LedSys).current_lux
        = 50 ∧
    (TIMER1B_Handler (some 50)
        { sampleSys with current_lux := 50, lux_sensor_sensitivity := 255 }).brightness_scale
      = 1 / 4 ∧
    ({ sampleSys with current_lux := 50, lux_sensor_sensitivity := 255 } : LedSys).brightness_scale
      = 1 ∧
    (TIMER1B_Handler (some 50)
        { sampleSys with current_lux := 50, lux_sensor_sensitivity := 255 }).timerA_enabled
      = true := by
  refine ⟨rfl, ?_, rfl, ?_⟩
  · simp only [TIMER1B_Handler, sampleSys, led_update_hw_start, LED_LUX_CHANGE_HYSTERESIS,
      LED_MAX_LUX_SENSITIVITY]
    norm_num
  · simp only [TIMER1B_Handler, sampleSys, led_update_hw_start, LED_LUX_CHANGE_HYSTERESIS,
      LED_MAX_LUX_SENSITIVITY]
    norm_num

/-- C6 — amended.  During an ambient poll with a successful read (guard
satisfied), write `new_lux` for the reading clamped to `max_lux`.  The
update is rejected (complete no-op) exactly when `new_lux` differs from
`current_lux` by a NONZERO amount smaller than the hysteresis threshold
30; it is accepted when the difference is at least 30 — and also in the
unflagged boundary case `new_lux = current_lux`, which both strict
hysteresis guards let through.  On acceptance the scale factor becomes
`1 - (sensitivity/255) * ((max_lux - new_lux)/max_lux)`, `current_lux`
becomes `new_lux`, and the fade timer is started. -/
theorem C6_hysteresis_accept_reject (s : LedSys) (lux : ℕ)
    (hA : s.timerA_enabled = false) (hE : s.sw_enable = true) :
    (s.current_lux ≠ (if s.max_lux < lux then s.max_lux else lux) →
      s.current_lux - (if s.max_lux < lux then s.max_lux else lux) < LED_LUX_CHANGE_HYSTERESIS →
      (if s.max_lux < lux then s.max_lux else lux) - s.current_lux < LED_LUX_CHANGE_HYSTERESIS →
      TIMER1B_Handler (some lux) s = s) ∧
    (s.current_lux = (if s.max_lux < lux then s.max_lux else lux) ∨
        LED_LUX_CHANGE_HYSTERESIS ≤ s.current_lux - (if s.max_lux < lux then s.max_lux else lux) ∨
        LED_LUX_CHANGE_HYSTERESIS ≤ (if s.max_lux < lux then s.max_lux else lux) - s.current_lux →
      TIMER1B_Handler (some lux) s =
        led_update_hw_start
          { s with
            brightness_scale := 1 -
              ((s.lux_sensor_sensitivity : ℚ) / (LED_MAX_LUX_SENSITIVITY : ℚ)) *
                (((s.max_lux - (if s.max_lux < lux then s.max_lux else lux) : ℕ) : ℚ) /
                  (s.max_lux : ℚ)),
            current_lux := if s.max_lux < lux then s.max_lux else lux }) := by
  constructor
  · intro hne h1 h2
    by_cases hclamp : s.max_lux < lux
    · rw [if_pos hclamp] at hne h1 h2
      simp only [TIMER1B_Handler, hA, hE, Bool.not_false, Bool.and_self, eq_self_iff_true,
        if_true, if_pos hclamp]
      split_ifs with hc1 hc2
      · rfl
      · rfl
      · exfalso
        omega
    · rw [if_neg hclamp] at hne h1 h2
      simp only [TIMER1B_Handler, hA, hE, Bool.not_false, Bool.and_self, eq_self_iff_true,
        if_true, if_neg hclamp]
      split_ifs with hc1 hc2
      · rfl
      · rfl
      · exfalso
        omega
  · intro hacc
    by_cases hclamp : s.max_lux < lux
    · rw [if_pos hclamp] at hacc ⊢
      simp only [TIMER1B_Handler, hA, hE, Bool.not_false, Bool.and_self, eq_self_iff_true,
        if_true, if_pos hclamp]
      split_ifs with hc1 hc2
      · exfalso
        omega
      · exfalso
        omega
      · rfl
    · rw [if_neg hclamp] at hacc ⊢
      simp only [TIMER1B_Handler, hA, hE, Bool.not_false, Bool.and_self, eq_self_iff_true,
        if_true, if_neg hclamp]
      split_ifs with hc1 hc2
      · exfalso
        omega
      · exfalso
        omega
      · rfl

/-- C6 — witness: with `current_lux = 100`, a reading of 90 (difference
10) is rejected as a no-op; a reading of 20 (difference 80 ≥ 30) is
accepted, recomputing the scale factor and storing the new lux. -/
theorem C6_hysteresis_witness :
    TIMER1B_Handler (some 90)
        { sampleSys with current_lux := 100, lux_sensor_sensitivity := 255 } =
      { sampleSys with current_lux := 100, lux_sensor_sensitivity := 255 } ∧
    TIMER1B_Handler (some 20)
        { sampleSys with current_lux := 100, lux_sensor_sensitivity := 255 } =
      led_update_hw_start
        { sampleSys with
            brightness_scale := 1 - ((255 : ℕ) : ℚ) / (LED_MAX_LUX_SENSITIVITY : ℚ) *
              (((180 : ℕ) : ℚ) / ((200 : ℕ) : ℚ)),
            current_lux := 20,
            lux_sensor_sensitivity := 255 } :=
  ⟨(C6_hysteresis_accept_reject
      { sampleSys with current_lux := 100, lux_sensor_sensitivity := 255 } 90 rfl rfl).1
      (by decide) (by decide) (by decide),
   (C6_hysteresis_accept_reject
      { sampleSys with current_lux := 100, lux_sensor_sensitivity := 255 } 20 rfl rfl).2
      (Or.inr (Or.inl (by decide)))⟩

/-- C1 — counterexample.  One fade tick on a channel with
`current_brightness = 5`, target `desired * scale = 4 * 1 = 4` and
`brightness_step = 3` subtracts the full step with no floor at the
target: the new value 2 is BELOW the target 4, outside the closed
interval [4, 5], contradicting "subtracts brightness_step flooring at
target (never going below it)". -/
theorem C1_overshoot_counterexample :
    targetOf 4 1 = 4 ∧
    (fadeChannel 1 3 ⟨5, 0, 4⟩).1.current_brightness = 2 ∧
    (fadeChannel 1 3 ⟨5, 0, 4⟩).1.current_brightness < targetOf 4 1 := by
  have ht : targetOf (4 : ℕ) (1 : ℚ) = 4 := by simp [targetOf]
  have e : (fadeChannel 1 3 ⟨5, 0, 4⟩).1.current_brightness = 2 := by
    simp only [fadeChannel, ht]
    norm_num [UINT32_LIMIT]
  refine ⟨ht, e, ?_⟩
  rw [e, ht]
  omega

/-- C1 — amended.  On a fade tick, with `target = ⌊desired_brightness *
scale_factor⌋`: if `current > target` the code subtracts
`brightness_step` WITHOUT flooring at the target (the `uint32_t`
difference wraps modulo `2^32`), if `current < target` it adds
`brightness_step` without a ceiling, and if they are equal the channel is
untouched.  Only when the step does not exceed the distance to the target
(in particular for the default step 1) is the new value guaranteed to
stay inside the closed interval between the pre-tick value and the
target. -/
theorem C1_fade_step_no_clamp (c : LedInfo) (scale : ℚ) (step : ℕ)
    (hcur : c.current_brightness < UINT32_LIMIT) :
    (targetOf c.desired_brightness scale < c.current_brightness →
      (fadeChannel scale step c).1.current_brightness =
        (c.current_brightness + UINT32_LIMIT - step % UINT32_LIMIT) % UINT32_LIMIT ∧
      (step ≤ c.current_brightness - targetOf c.desired_brightness scale →
        (fadeChannel scale step c).1.current_brightness = c.current_brightness - step ∧
        targetOf c.desired_brightness scale ≤ (fadeChannel scale step c).1.current_brightness ∧
        (fadeChannel scale step c).1.current_brightness ≤ c.current_brightness)) ∧
    (c.current_brightness < targetOf c.desired_brightness scale →
      (fadeChannel scale step c).1.current_brightness =
        (c.current_brightness + step) % UINT32_LIMIT ∧
      (step ≤ targetOf c.desired_brightness scale - c.current_brightness →
        targetOf c.desired_brightness scale < UINT32_LIMIT →
        (fadeChannel scale step c).1.current_brightness = c.current_brightness + step ∧
        c.current_brightness ≤ (fadeChannel scale step c).1.current_brightness ∧
        (fadeChannel scale step c).1.current_brightness ≤
          targetOf c.desired_brightness scale)) ∧
    (targetOf c.desired_brightness scale = c.current_brightness →
      fadeChannel scale step c = (c, false)) := by
  refine ⟨?_, ?_, ?_⟩
  · intro h
    have e : (fadeChannel scale step c).1.current_brightness =
        (c.current_brightness + UINT32_LIMIT - step % UINT32_LIMIT) % UINT32_LIMIT := by
      simp only [fadeChannel]
      rw [if_pos h]
    refine ⟨e, fun hs => ?_⟩
    have hsl : step % UINT32_LIMIT = step := by
      refine Nat.mod_eq_of_lt ?_
      omega
    have e2 : (fadeChannel scale step c).1.current_brightness =
        c.current_brightness - step := by
      rw [e, hsl]
      simp only [UINT32_LIMIT] at *
      omega
    refine ⟨e2, ?_, ?_⟩ <;> rw [e2] <;> omega
  · intro h
    have e : (fadeChannel scale step c).1.current_brightness =
        (c.current_brightness + step) % UINT32_LIMIT := by
      simp only [fadeChannel]
      rw [if_neg (by omega), if_pos h]
    refine ⟨e, fun hs htl => ?_⟩
    have e2 : (fadeChannel scale step c).1.current_brightness =
        c.current_brightness + step := by
      rw [e]
      refine Nat.mod_eq_of_lt ?_
      omega
    refine ⟨e2, ?_, ?_⟩ <;> rw [e2] <;> omega
  · intro h
    simp only [fadeChannel]
    rw [if_neg (by omega), if_neg (by omega)]

/-- C1 — witness: with target 4, step 3: from 10 one tick lands on 7
inside [4, 10]; from 4 (on target) the channel is untouched. -/
theorem C1_fade_step_witness :
    (fadeChannel 1 3 ⟨10, 0, 4⟩).1.current_brightness = 10 - 3 ∧
    targetOf 4 1 ≤ (fadeChannel 1 3 ⟨10, 0, 4⟩).1.current_brightness ∧
    (fadeChannel 1 3 ⟨10, 0, 4⟩).1.current_brightness ≤ 10 ∧
    fadeChannel 1 3 ⟨4, 0, 4⟩ = (⟨4, 0, 4⟩, false) := by
  have ht : targetOf (4 : ℕ) (1 : ℚ) = 4 := by simp [targetOf]
  have h1 := (C1_fade_step_no_clamp ⟨10, 0, 4⟩ 1 3 (by decide)).1
    (by show targetOf 4 1 < 10; rw [ht]; omega)
  have h2 := h1.2 (by show 3 ≤ 10 - targetOf 4 1; rw [ht]; omega)
  have h3 := (C1_fade_step_no_clamp ⟨4, 0, 4⟩ 1 3 (by decide)).2.2
    (by show targetOf 4 1 = 4; exact ht)
  exact ⟨h2.1, h2.2.1, h2.2.2, h3⟩

lemma fadeChannel_down (scale : ℚ) (step : ℕ) (c : LedInfo)
    (ht : targetOf c.desired_brightness scale < c.current_brightness)
    (hs : step ≤ c.current_brightness - targetOf c.desired_brightness scale)
    (hcur : c.current_brightness < UINT32_LIMIT) :
    fadeChannel scale step c =
      ({ c with current_brightness := c.current_brightness - step }, true) := by
  simp only [fadeChannel]
  rw [if_pos ht]
  have hsl : step % UINT32_LIMIT = step := by
    refine Nat.mod_eq_of_lt ?_
    omega
  rw [hsl]
  have harith : (c.current_brightness + UINT32_LIMIT - step) % UINT32_LIMIT =
      c.current_brightness - step := by
    simp only [UINT32_LIMIT] at *
    omega
  rw [harith]

lemma fadeChannel_up (scale : ℚ) (step : ℕ) (c : LedInfo)
    (ht : c.current_brightness < targetOf c.desired_brightness scale)
    (hs : step ≤ targetOf c.desired_brightness scale - c.current_brightness)
    (htl : targetOf c.desired_brightness scale < UINT32_LIMIT) :
    fadeChannel scale step c =
      ({ c with current_brightness := c.current_brightness + step }, true) := by
  simp only [fadeChannel]
  rw [if_neg (by omega), if_pos ht]
  have harith : (c.current_brightness + step) % UINT32_LIMIT =
      c.current_brightness + step := by
    refine Nat.mod_eq_of_lt ?_
    simp only [UINT32_LIMIT] at *
    omega
  rw [harith]

lemma fadeChannel_on_target (scale : ℚ) (step : ℕ) (c : LedInfo)
    (ht : targetOf c.desired_brightness scale = c.current_brightness) :
    fadeChannel scale step c = (c, false) := by
  simp only [fadeChannel]
  rw [if_neg (by omega), if_neg (by omega)]

lemma fadeTick_single_down_raw (s : LedSys) (cur prev des step : ℕ) (q : ℚ)
    (ht : targetOf des q < cur) :
    stepEvent LedEvent.fadeTick (singleFadeSys s cur prev des step q) =
      singleFadeSys s ((cur + UINT32_LIMIT - step % UINT32_LIMIT) % UINT32_LIMIT)
        prev des step q := by
  have hunfold : stepEvent LedEvent.fadeTick (singleFadeSys s cur prev des step q) =
      TIMER1A_Handler (singleFadeSys s cur prev des step q) := rfl
  rw [hunfold]
  have hc : fadeChannel q step ⟨cur, prev, des⟩ =
      (⟨(cur + UINT32_LIMIT - step % UINT32_LIMIT) % UINT32_LIMIT, prev, des⟩, true) := by
    simp only [fadeChannel]
    rw [if_pos ht]
  simp only [TIMER1A_Handler, singleFadeSys, List.map_cons, List.map_nil, hc,
    List.all_cons, List.all_nil, Bool.not_true, Bool.false_and, Bool.and_true]
  rfl

lemma fadeTick_single_down (s : LedSys) (cur prev des step : ℕ) (q : ℚ)
    (ht : targetOf des q < cur) (hs : step ≤ cur - targetOf des q)
    (hcur : cur < UINT32_LIMIT) :
    stepEvent LedEvent.fadeTick (singleFadeSys s cur prev des step q) =
      singleFadeSys s (cur - step) prev des step q := by
  rw [fadeTick_single_down_raw s cur prev des step q ht]
  have hsl : step % UINT32_LIMIT = step := by
    refine Nat.mod_eq_of_lt ?_
    omega
  rw [hsl]
  have harith : (cur + UINT32_LIMIT - step) % UINT32_LIMIT = cur - step := by
    simp only [UINT32_LIMIT] at *
    omega
  rw [harith]

lemma fadeTick_single_up (s : LedSys) (cur prev des step : ℕ) (q : ℚ)
    (ht : cur < targetOf des q) (hs : step ≤ targetOf des q - cur)
    (htl : targetOf des q < UINT32_LIMIT) :
    stepEvent LedEvent.fadeTick (singleFadeSys s cur prev des step q) =
      singleFadeSys s (cur + step) prev des step q := by
  have hunfold : stepEvent LedEvent.fadeTick (singleFadeSys s cur prev des step q) =
      TIMER1A_Handler (singleFadeSys s cur prev des step q) := rfl
  rw [hunfold]
  have hc : fadeChannel q step ⟨cur, prev, des⟩ =
      (⟨cur + step, prev, des⟩, true) :=
    fadeChannel_up q step ⟨cur, prev, des⟩ ht hs htl
  simp only [TIMER1A_Handler, singleFadeSys, List.map_cons, List.map_nil, hc,
    List.all_cons, List.all_nil, Bool.not_true, Bool.false_and, Bool.and_true]
  rfl

lemma fadeTick_single_on_target (s : LedSys) (cur prev des step : ℕ) (q : ℚ)
    (ht : targetOf des q = cur) :
    stepEvent LedEvent.fadeTick (singleFadeSys s cur prev des step q) =
      { singleFadeSys s cur prev des step q with timerA_enabled := false } := by
  have hunfold : stepEvent LedEvent.fadeTick (singleFadeSys s cur prev des step q) =
      TIMER1A_Handler (singleFadeSys s cur prev des step q) := rfl
  rw [hunfold]
  have hc : fadeChannel q step ⟨cur, prev, des⟩ = (⟨cur, prev, des⟩, false) :=
    fadeChannel_on_target q step ⟨cur, prev, des⟩ ht
  simp only [TIMER1A_Handler, singleFadeSys, List.map_cons, List.map_nil, hc,
    List.all_cons, List.all_nil, Bool.not_false, Bool.true_and, Bool.and_true]
  rfl

lemma fadeTick_noop (s : LedSys) (h : s.timerA_enabled = false) :
    stepEvent LedEvent.fadeTick s = s := by
  simp [stepEvent, h]

/-- Downward fade trajectory: starting `n` whole steps above the target,
`k ≤ n` ticks land exactly `n - k` steps above it (timer still on). -/
lemma fade_traj_down (s : LedSys) (prev des step n : ℕ) (q : ℚ)
    (hstep : 1 ≤ step) :
    ∀ cur, cur = targetOf des q + n * step → cur < UINT32_LIMIT →
    ∀ k, k ≤ n →
      (stepEvent LedEvent.fadeTick)^[k] (singleFadeSys s cur prev des step q) =
        singleFadeSys s (targetOf des q + (n - k) * step) prev des step q := by
  intro cur hcur hlim k
  induction k with
  | zero =>
    intro _
    rw [Function.iterate_zero_apply, Nat.sub_zero, ← hcur]
  | succ m ih =>
    intro hk
    have hm : m ≤ n := by omega
    rw [Function.iterate_succ_apply', ih hm]
    have hmul1 : 1 * step ≤ (n - m) * step := by
      refine Nat.mul_le_mul_right step ?_
      omega
    rw [one_mul] at hmul1
    have hmul2 : (n - m) * step ≤ n * step := by
      refine Nat.mul_le_mul_right step ?_
      omega
    have hdown := fadeTick_single_down s (targetOf des q + (n - m) * step) prev des step q
      (by omega) (by omega) (by omega)
    rw [hdown]
    have hsplit : n - m = (n - (m + 1)) + 1 := by omega
    have harith : targetOf des q + (n - m) * step - step =
        targetOf des q + (n - (m + 1)) * step := by
      rw [hsplit, Nat.succ_mul]
      omega
    rw [harith]

/-- Upward fade trajectory: starting `n` whole steps below the target,
`k ≤ n` ticks land exactly `n - k` steps below it (timer still on). -/
lemma fade_traj_up (s : LedSys) (prev des step n : ℕ) (q : ℚ)
    (hstep : 1 ≤ step) (htl : targetOf des q < UINT32_LIMIT) :
    ∀ cur, targetOf des q = cur + n * step →
    ∀ k, k ≤ n →
      (stepEvent LedEvent.fadeTick)^[k] (singleFadeSys s cur prev des step q) =
        singleFadeSys s (targetOf des q - (n - k) * step) prev des step q := by
  intro cur hcur k
  induction k with
  | zero =>
    intro _
    rw [Function.iterate_zero_apply, Nat.sub_zero]
    have : targetOf des q - n * step = cur := by omega
    rw [this]
  | succ m ih =>
    intro hk
    have hm : m ≤ n := by omega
    rw [Function.iterate_succ_apply', ih hm]
    have hmul1 : 1 * step ≤ (n - m) * step := by
      refine Nat.mul_le_mul_right step ?_
      omega
    rw [one_mul] at hmul1
    have hmul2 : (n - m) * step ≤ n * step := by
      refine Nat.mul_le_mul_right step ?_
      omega
    have hup := fadeTick_single_up s (targetOf des q - (n - m) * step) prev des step q
      (by omega) (by omega) htl
    rw [hup]
    have hsplit : n - m = (n - (m + 1)) + 1 := by omega
    rw [hsplit, Nat.succ_mul] at hmul1 hmul2
    have harith : targetOf des q - (n - m) * step + step =
        targetOf des q - (n - (m + 1)) * step := by
      rw [hsplit, Nat.succ_mul]
      omega
    rw [harith]

/-- C2 — counterexample.  Single channel, `current = 10`, `desired = 0`,
`scale = 1` (target 0), `step = 3`: the claimed bound is
`|0 - 10| / 3 + 1 = 4` ticks, but the trajectory is 10, 7, 4, 1, and on
the 4th tick the `uint32_t` subtraction `1 - 3` wraps to `2^32 - 2 =
4294967294`: at the bound the channel is nowhere near the target (it has
not reached it, is not within one step of it, and the fade timer is still
enabled, since every tick changed the channel). -/
theorem C2_wraparound_counterexample :
    targetOf 0 1 = 0 ∧
    (10 - 0) / 3 + 1 = 4 ∧
    (stepEvent LedEvent.fadeTick)^[4] (singleFadeSys sampleSys 10 0 0 3 1) =
      singleFadeSys sampleSys 4294967294 0 0 3 1 ∧
    ((stepEvent LedEvent.fadeTick)^[4]
        (singleFadeSys sampleSys 10 0 0 3 1)).timerA_enabled = true ∧
    ((stepEvent LedEvent.fadeTick)^[4]
        (singleFadeSys sampleSys 10 0 0 3 1)).leds.map LedInfo.current_brightness =
      [4294967294] := by
  have ht0 : targetOf (0 : ℕ) (1 : ℚ) = 0 := by simp [targetOf]
  have e1 : stepEvent LedEvent.fadeTick (singleFadeSys sampleSys 10 0 0 3 1) =
      singleFadeSys sampleSys 7 0 0 3 1 :=
    fadeTick_single_down sampleSys 10 0 0 3 1 (by rw [ht0]; omega) (by rw [ht0]; omega) (by decide)
  have e2 : stepEvent LedEvent.fadeTick (singleFadeSys sampleSys 7 0 0 3 1) =
      singleFadeSys sampleSys 4 0 0 3 1 :=
    fadeTick_single_down sampleSys 7 0 0 3 1 (by rw [ht0]; omega) (by rw [ht0]; omega) (by decide)
  have e3 : stepEvent LedEvent.fadeTick (singleFadeSys sampleSys 4 0 0 3 1) =
      singleFadeSys sampleSys 1 0 0 3 1 :=
    fadeTick_single_down sampleSys 4 0 0 3 1 (by rw [ht0]; omega) (by rw [ht0]; omega) (by decide)
  have e4 : stepEvent LedEvent.fadeTick (singleFadeSys sampleSys 1 0 0 3 1) =
      singleFadeSys sampleSys 4294967294 0 0 3 1 := by
    rw [fadeTick_single_down_raw sampleSys 1 0 0 3 1 (by rw [ht0]; omega)]
    norm_num [UINT32_LIMIT]
  have e : (stepEvent LedEvent.fadeTick)^[4] (singleFadeSys sampleSys 10 0 0 3 1) =
      singleFadeSys sampleSys 4294967294 0 0 3 1 := by
    show stepEvent LedEvent.fadeTick (stepEvent LedEvent.fadeTick (stepEvent LedEvent.fadeTick
      (stepEvent LedEvent.fadeTick (singleFadeSys sampleSys 10 0 0 3 1)))) = _
    rw [e1, e2, e3, e4]
  refine ⟨ht0, by norm_num, e, ?_, ?_⟩
  · rw [e]
    rfl
  · rw [e]
    rfl

/-- C2 — amended.  For a single channel with `step ≥ 1`, when `step`
divides the distance `gap` between `current` and the (truncated,
in-range) target — in particular for the firmware default `step = 1` —
the iterated fade tick reaches `current = target` in exactly
`n = gap / step` ticks (within the claimed bound `gap / step + 1`), the
fade timer stays enabled through tick `n` (every tick up to `n` changed
the channel), is disabled exactly on tick `n + 1` — the first tick on
which no channel changed — and every later tick is a no-op.  Without the
divisibility proviso the code can overshoot and wrap (see the
counterexample), so the bound fails in general. -/
theorem C2_fade_convergence_divisible (s : LedSys) (cur prev des step n : ℕ) (q : ℚ)
    (hstep : 1 ≤ step)
    (hcur : cur < UINT32_LIMIT)
    (htl : targetOf des q < UINT32_LIMIT)
    (hdvd : step ∣ (if targetOf des q ≤ cur then cur - targetOf des q
      else targetOf des q - cur))
    (hn : n = (if targetOf des q ≤ cur then cur - targetOf des q
      else targetOf des q - cur) / step) :
    (∀ k, k ≤ n → ((stepEvent LedEvent.fadeTick)^[k]
        (singleFadeSys s cur prev des step q)).timerA_enabled = true) ∧
    ((stepEvent LedEvent.fadeTick)^[n] (singleFadeSys s cur prev des step q) =
      singleFadeSys s (targetOf des q) prev des step q) ∧
    ((stepEvent LedEvent.fadeTick)^[n + 1] (singleFadeSys s cur prev des step q) =
      { singleFadeSys s (targetOf des q) prev des step q with timerA_enabled := false }) ∧
    (∀ m, (stepEvent LedEvent.fadeTick)^[n + 1 + m] (singleFadeSys s cur prev des step q) =
      { singleFadeSys s (targetOf des q) prev des step q with timerA_enabled := false }) ∧
    n ≤ (if targetOf des q ≤ cur then cur - targetOf des q
      else targetOf des q - cur) / step + 1 := by
  have htraj : ∀ k, k ≤ n →
      (stepEvent LedEvent.fadeTick)^[k] (singleFadeSys s cur prev des step q) =
        (if targetOf des q ≤ cur then
          singleFadeSys s (targetOf des q + (n - k) * step) prev des step q
        else singleFadeSys s (targetOf des q - (n - k) * step) prev des step q) := by
    intro k hk
    by_cases hdir : targetOf des q ≤ cur
    · rw [if_pos hdir]
      rw [if_pos hdir] at hdvd hn
      have hmul : n * step = cur - targetOf des q := by
        rw [hn]
        exact Nat.div_mul_cancel hdvd
      exact fade_traj_down s prev des step n q hstep cur (by omega) hcur k hk
    · rw [if_neg hdir]
      rw [if_neg hdir] at hdvd hn
      have hmul : n * step = targetOf des q - cur := by
        rw [hn]
        exact Nat.div_mul_cancel hdvd
      exact fade_traj_up s prev des step n q hstep htl cur (by omega) k hk
  have hreach : (stepEvent LedEvent.fadeTick)^[n] (singleFadeSys s cur prev des step q) =
      singleFadeSys s (targetOf des q) prev des step q := by
    have := htraj n le_rfl
    rw [Nat.sub_self, zero_mul] at this
    by_cases hdir : targetOf des q ≤ cur
    · rw [if_pos hdir] at this
      rw [this, Nat.add_zero]
    · rw [if_neg hdir] at this
      rw [this, Nat.sub_zero]
  have hstop : (stepEvent LedEvent.fadeTick)^[n + 1] (singleFadeSys s cur prev des step q) =
      { singleFadeSys s (targetOf des q) prev des step q with timerA_enabled := false } := by
    rw [Function.iterate_succ_apply', hreach]
    exact fadeTick_single_on_target s (targetOf des q) prev des step q rfl
  refine ⟨?_, hreach, hstop, ?_, by omega⟩
  · intro k hk
    rw [htraj k hk]
    by_cases hdir : targetOf des q ≤ cur
    · rw [if_pos hdir]
      rfl
    · rw [if_neg hdir]
      rfl
  · intro m
    induction m with
    | zero => exact hstop
    | succ m' ih =>
      have : n + 1 + (m' + 1) = (n + 1 + m') + 1 := by omega
      rw [this, Function.iterate_succ_apply', ih]
      exact fadeTick_noop _ rfl

/-- C2 — witness: channel from 10 toward target `2 * 1 = 2` with step 2:
timer on at tick 2, on target after `8 / 2 = 4` ticks, self-disabled on
tick 5, still parked there at tick 9. -/
theorem C2_fade_convergence_witness :
    ((stepEvent LedEvent.fadeTick)^[2]
      (singleFadeSys sampleSys 10 0 2 2 1)).timerA_enabled = true ∧
    (stepEvent LedEvent.fadeTick)^[4] (singleFadeSys sampleSys 10 0 2 2 1) =
      singleFadeSys sampleSys (targetOf 2 1) 0 2 2 1 ∧
    (stepEvent LedEvent.fadeTick)^[5] (singleFadeSys sampleSys 10 0 2 2 1) =
      { singleFadeSys sampleSys (targetOf 2 1) 0 2 2 1 with timerA_enabled := false } ∧
    (stepEvent LedEvent.fadeTick)^[9] (singleFadeSys sampleSys 10 0 2 2 1) =
      { singleFadeSys sampleSys (targetOf 2 1) 0 2 2 1 with timerA_enabled := false } := by
  have ht2 : targetOf (2 : ℕ) (1 : ℚ) = 2 := by simp [targetOf]
  have h := C2_fade_convergence_divisible sampleSys 10 0 2 2 4 1 (by decide) (by decide)
    (by rw [ht2]; decide) (by rw [ht2]; decide) (by rw [ht2]; decide)
  exact ⟨h.1 2 (by omega), h.2.1, h.2.2.1, h.2.2.2.1 4⟩
